import Mathlib

/-!
Verification of the request-lifecycle controller of the secure Express
scaffold: the middleware pipeline (rate limiting, CORS, validation,
centralized error formatting) and the graceful-shutdown state machine.

Definitions are shallow embeddings of the JavaScript sources:
  server.js                       (express-validator variant: pipeline,
                                   health endpoint, graceful shutdown)
  src/utils/errorHandler.js       (secure error formatter)
  src/config/cors.config.js       (CORS whitelist validator)
  src/config/rateLimit.config.js  (rate-limit options, skip predicate)
JavaScript objects become structures, `undefined`/missing fields become
Option, and JavaScript truthiness is modelled explicitly where the code
relies on it (numbers: 0 is falsy; strings: "" is falsy). The two
external packages whose behavior claims mention (`cors`,
`express-rate-limit`) are modelled from the spec at their interface
boundary; every definition taken from the spec rather than from a
source file says so in its doc comment.
-/

namespace SecureApi

/-! ## JSON value model -/

/-- Minimal JSON value model for response bodies built by the handlers. -/
inductive JVal : Type where
  | null : JVal
  | bool : Bool → JVal
  | num : Int → JVal
  | str : String → JVal
  | arr : List JVal → JVal
  | obj : List (String × JVal) → JVal

/-- Look up a key in a JSON object; `none` for non-objects or absent keys. -/
def jlookup : JVal → String → Option JVal
  | JVal.obj fields, k => fields.lookup k
  | _, _ => none

/-- Shape of a JSON value: the tree of keys with all leaf payloads erased.
Two envelopes have the same shape when the same set of fields is present
at every level, regardless of the leaf values. -/
inductive JShape : Type where
  | leaf : JShape
  | arrS : List JShape → JShape
  | objS : List (String × JShape) → JShape

mutual

/-- Compute the shape of a JSON value (erase every scalar leaf). -/
def jshape : JVal → JShape
  | JVal.null => JShape.leaf
  | JVal.bool _ => JShape.leaf
  | JVal.num _ => JShape.leaf
  | JVal.str _ => JShape.leaf
  | JVal.arr l => JShape.arrS (jshapeList l)
  | JVal.obj l => JShape.objS (jshapeObj l)

/-- Shapes of a list of JSON values. -/
def jshapeList : List JVal → List JShape
  | [] => []
  | v :: vs => jshape v :: jshapeList vs

/-- Shapes of the fields of a JSON object. -/
def jshapeObj : List (String × JVal) → List (String × JShape)
  | [] => []
  | (k, v) :: vs => (k, jshape v) :: jshapeObj vs

end

/-! ## JavaScript semantics helpers -/

/-- JavaScript truthiness for an optional number: `undefined` and `0`
are falsy. Models `if (err.statusCode)` style checks. -/
def truthyNum : Option Nat → Bool
  | some n => n ≠ 0
  | none => false

/-- JavaScript truthiness for a string: only the empty string is falsy.
Models `a || b` fallbacks on string fields. -/
def truthyStr (s : String) : Bool :=
  s ≠ ""

/-- JavaScript `a || b` on strings (first operand wins when truthy). -/
def jsOrStr (a b : String) : String :=
  if truthyStr a then a else b

/-- Model of `parseInt(env, 10) || d`: an unset or unparsable variable
(`NaN`, modelled as `none`) and a parsed `0` both fall back to `d`. -/
def parseIntOr (v : Option Nat) (d : Nat) : Nat :=
  match v with
  | some n => if n ≠ 0 then n else d
  | none => d

/-! ## Environment-derived configuration

From `server.js` CONFIG and `src/config/cors.config.js`. -/

/-- Shutdown timeout from `server.js`:
`SHUTDOWN_TIMEOUT_MS: parseInt(process.env.SHUTDOWN_TIMEOUT_MS, 10) || 30000`. -/
def shutdownTimeoutMs (env : Option Nat) : Nat :=
  parseIntOr env 30000

/-- The CORS credentials flag from `src/config/cors.config.js`:
`credentials: process.env.CORS_CREDENTIALS !== 'false'`. -/
def corsCredentials (env : Option String) : Bool :=
  env ≠ some "false"

/-- Whitelist parsing from `src/config/cors.config.js` `parseOrigins`:
the `CORS_ORIGIN` variable (default `http://localhost:3000`) split on
commas, each entry trimmed. -/
def parseOrigins (env : Option String) : List String :=
  ((env.getD "http://localhost:3000").splitOn ",").map String.trim

/-! ## Error classification and the secure error formatter

From `src/utils/errorHandler.js`. -/

/-- Shallow embedding of the duck-typed JavaScript error objects reaching
the error middleware: optional `statusCode` / `status` numeric fields,
the `name` string, the `isJoi` marker, whether the object is a
`SyntaxError` instance, its `message` and `stack` strings, and optional
Joi `details`. -/
structure JsErr : Type where
  statusCode : Option Nat
  status : Option Nat
  name : String
  isJoi : Bool
  isSyntaxError : Bool
  message : String
  stack : String
  details : Option JVal

/-- Model of `err.message.includes('JSON')`. -/
def includesJSON (s : String) : Bool :=
  (s.splitOn "JSON").length ≠ 1

/-- Shallow embedding of `getStatusCode` from `src/utils/errorHandler.js`:

    if (err.statusCode) return err.statusCode;
    if (err.status) return err.status;
    if (err.name === 'ValidationError' || err.isJoi) return 400;
    if (err instanceof SyntaxError && err.message.includes('JSON')) return 400;
    return 500;

JavaScript truthiness on the numeric fields is preserved. -/
def getStatusCode (e : JsErr) : Nat :=
  if truthyNum e.statusCode then e.statusCode.getD 0
  else if truthyNum e.status then e.status.getD 0
  else if e.name = "ValidationError" ∨ e.isJoi then 400
  else if e.isSyntaxError ∧ includesJSON e.message then 400
  else 500

/-- The status classification exactly as the claim words it: explicit
`statusCode` if present, else `status` if present, else 400 for
validation-shaped failures, else 400 for JSON syntax errors, else 500.
Written from the spec sentence, to be compared with `getStatusCode`. -/
def claimStatusCode (e : JsErr) : Nat :=
  match e.statusCode with
  | some c => c
  | none =>
    match e.status with
    | some c => c
    | none =>
      if e.name = "ValidationError" ∨ e.isJoi then 400
      else if e.isSyntaxError ∧ includesJSON e.message then 400
      else 500

/-- Production branch of the response envelope built by `errorHandler`
(`src/utils/errorHandler.js`): a generic message selected by status
class, the status code and the fresh reference id. No stack, no name,
no details. -/
def prodEnvelope (statusCode : Nat) (refId : String) : JVal :=
  JVal.obj
    [ ("success", JVal.bool false),
      ("error", JVal.obj
        [ ("message", JVal.str
            (if statusCode = 400 then "Bad Request: Invalid input provided"
             else "An unexpected error occurred")),
          ("statusCode", JVal.num statusCode),
          ("errorReferenceId", JVal.str refId) ]) ]

/-- Development branch of the response envelope built by `errorHandler`:
full message (`err.message || 'An error occurred'`), error name
(`err.name || 'Error'`), status code, reference id, stack, and Joi
details (`err.details || null`). -/
def devEnvelope (e : JsErr) (statusCode : Nat) (refId : String) : JVal :=
  JVal.obj
    [ ("success", JVal.bool false),
      ("error", JVal.obj
        [ ("message", JVal.str (jsOrStr e.message "An error occurred")),
          ("name", JVal.str (jsOrStr e.name "Error")),
          ("statusCode", JVal.num statusCode),
          ("errorReferenceId", JVal.str refId),
          ("stack", JVal.str e.stack),
          ("details", e.details.getD JVal.null) ]) ]

/-- Shallow embedding of the `errorHandler` middleware from
`src/utils/errorHandler.js`: given the environment mode and the fresh
random reference id (passed explicitly since `crypto.randomUUID()` is
the only nondeterminism), produce the HTTP status and the JSON body. -/
def errorHandler (isProduction : Bool) (e : JsErr) (refId : String) :
    Nat × JVal :=
  let statusCode := getStatusCode e
  if isProduction then (statusCode, prodEnvelope statusCode refId)
  else (statusCode, devEnvelope e statusCode refId)

/-- Field `k` of the nested `error` object of an envelope. -/
def envelopeErrorField (body : JVal) (k : String) : Option JVal :=
  jlookup ((jlookup body "error").getD JVal.null) k

/-! ## Graceful shutdown lifecycle

From `server.js` (`resources`, `gracefulShutdown`, the signal handlers
for SIGTERM / SIGINT / SIGQUIT and the process-level fault handlers,
all of which funnel into `gracefulShutdown`). -/

/-- Operations mutating the shared `resources` object during the process
lifetime: a termination signal (routed to `gracefulShutdown`), socket
open/close (the `connection` / `close` listeners of `createServer`),
and timer tracking (`addTimer` / `removeTimer`). -/
inductive SrvOp : Type where
  | signal : SrvOp
  | openConn : SrvOp
  | closeConn : SrvOp
  | addTimer : SrvOp
  | removeTimer : SrvOp
deriving DecidableEq, Repr

/-- Observable lifecycle state: the `resources.isShuttingDown` flag,
the sizes of the tracked connection and timer sets, and two event
counters instrumenting the model — how many drain sequences have started
and how many times `resources.cleanup` has been invoked. -/
structure LifecycleState : Type where
  isShuttingDown : Bool
  connections : Nat
  timers : Nat
  drains : Nat
  cleanups : Nat
deriving DecidableEq, Repr

/-- One step of the lifecycle. A signal runs `gracefulShutdown`: the
guard `if (resources.isShuttingDown) return;` makes it a no-op when the
flag is already set (the check and the flag assignment are synchronous,
with no await between them, so signals are atomic with respect to each
other); otherwise it sets the flag, drains connections and timers, and
invokes the cleanup hook once. No operation ever resets the flag: the
only assignment to `isShuttingDown` in the source sets it to `true`. -/
def stepOp (s : LifecycleState) : SrvOp → LifecycleState
  | SrvOp.signal =>
    if s.isShuttingDown then s
    else
      { isShuttingDown := true, connections := 0, timers := 0,
        drains := s.drains + 1, cleanups := s.cleanups + 1 }
  | SrvOp.openConn => { s with connections := s.connections + 1 }
  | SrvOp.closeConn => { s with connections := s.connections - 1 }
  | SrvOp.addTimer => { s with timers := s.timers + 1 }
  | SrvOp.removeTimer => { s with timers := s.timers - 1 }

/-- Run a sequence of lifecycle operations. -/
def runOps (s : LifecycleState) (ops : List SrvOp) : LifecycleState :=
  ops.foldl stepOp s

/-- The process starts with the flag down and no tracked resources. -/
def initState : LifecycleState :=
  { isShuttingDown := false, connections := 0, timers := 0,
    drains := 0, cleanups := 0 }

/-- Drain and cleanup counters track the flag: they are 0 while the flag
is down and exactly 1 once it is up. -/
def LifecycleInv (s : LifecycleState) : Prop :=
  (s.isShuttingDown = false ∧ s.drains = 0 ∧ s.cleanups = 0) ∨
  (s.isShuttingDown = true ∧ s.drains = 1 ∧ s.cleanups = 1)

/-! ## Drain sequence ordering and exit codes

From `gracefulShutdown` in `server.js` lines 558-621. -/

/-- Observable events of one drain sequence, in the order the code
performs them. `stopListener` is `server.close(...)`: the listener stops
accepting new connections while already-accepted requests are allowed to
finish (the callback fires only once existing connections have ended).
`closeConnections n` destroys the `n` tracked sockets, `clearTimers n`
clears the `n` tracked timers, `cleanupHook` awaits `resources.cleanup`,
and `exitProcess c` is `process.exit(c)`. -/
inductive SEvent : Type where
  | setFlag : SEvent
  | stopListener : SEvent
  | closeConnections : Nat → SEvent
  | clearTimers : Nat → SEvent
  | cleanupHook : SEvent
  | exitProcess : Nat → SEvent
deriving DecidableEq, Repr

/-- The entry actions of the drain sequence, in source order: set the
flag (line 564), stop the listener (`server.close`, step 1), destroy the
tracked sockets (step 2), clear the tracked timers (step 3), await the
cleanup hook (step 4). -/
def drainActions (connections timers : Nat) : List SEvent :=
  [SEvent.setFlag, SEvent.stopListener, SEvent.closeConnections connections,
   SEvent.clearTimers timers, SEvent.cleanupHook]

/-- Event trace of one `gracefulShutdown` call. A re-entrant call (flag
already set) produces no events. Otherwise the drain runs against the
force-shutdown timer armed for `CONFIG.SHUTDOWN_TIMEOUT_MS`: if the
timer does not fire (`timedOut = false`) the drain completes, the timer
is cleared and the process exits 0; if the timer fires first
(`timedOut = true`) the process exits 1 immediately, with `stepsDone`
recording how far the drain had progressed at that moment. -/
def gracefulShutdownTrace (alreadyShuttingDown : Bool)
    (connections timers : Nat) (stepsDone : Nat) (timedOut : Bool) :
    List SEvent :=
  if alreadyShuttingDown then []
  else if timedOut then
    (drainActions connections timers).take stepsDone ++ [SEvent.exitProcess 1]
  else drainActions connections timers ++ [SEvent.exitProcess 0]

/-! ## Request pipeline of server.js

The middleware chain of `server.js`: body parsers and the request
logger (which do not alter routing), then the shutdown-aware middleware
(lines 150-160), then the routes. -/

/-- An inbound HTTP request as the routing layer sees it. -/
structure Request : Type where
  method : String
  path : String
deriving DecidableEq, Repr

/-- An outbound HTTP response: status, headers, JSON body. -/
structure HttpResponse : Type where
  status : Nat
  headers : List (String × String)
  body : JVal

/-- The 503 response produced by the shutdown-aware middleware
(`server.js` lines 150-160): `Connection: close` header and a JSON body
`{error, message, timestamp}`. -/
def shutdownRejection (ts : String) : HttpResponse :=
  { status := 503,
    headers := [("Connection", "close")],
    body := JVal.obj
      [ ("error", JVal.str "Service Unavailable"),
        ("message", JVal.str "Server is shutting down"),
        ("timestamp", JVal.str ts) ] }

/-- The pipeline position of the shutdown-aware middleware: it runs
before every route, so when `isShuttingDown` is set it answers directly
and the route layer (`routes`) is never consulted. The returned Boolean
records whether route/business logic ran. -/
def appPipeline (routes : Request → HttpResponse) (isShuttingDown : Bool)
    (ts : String) (req : Request) : HttpResponse × Bool :=
  if isShuttingDown then (shutdownRejection ts, false)
  else (routes req, true)

/-! ## Validation failure formatting

From `handleValidationErrors` in `server.js` lines 236-256. The
express-validator rule engine is external; its output is the error list
this formatter receives. -/

/-- One express-validator error: `path` and `param` name the offending
field (either may be absent, modelled as the falsy empty string), `msg`
is the rule message, `value` the literal submitted value. -/
structure VErr : Type where
  path : String
  param : String
  msg : String
  value : JVal

/-- One formatted detail entry, from the `errors.array().map(...)` call:
`{field: error.path || error.param, message: error.msg, value: error.value}`. -/
def formatVErr (e : VErr) : JVal :=
  JVal.obj
    [ ("field", JVal.str (jsOrStr e.path e.param)),
      ("message", JVal.str e.msg),
      ("value", e.value) ]

/-- The 400 response body built by `handleValidationErrors` for a
non-empty error list. -/
def valFailureResponse (errors : List VErr) (ts : String) : HttpResponse :=
  { status := 400,
    headers := [],
    body := JVal.obj
      [ ("success", JVal.bool false),
        ("error", JVal.str "Validation Error"),
        ("message", JVal.str "One or more fields failed validation"),
        ("details", JVal.arr (errors.map formatVErr)),
        ("timestamp", JVal.str ts) ] }

/-- Shallow embedding of `handleValidationErrors`: on a non-empty error
list it answers 400 with the structured body; on an empty list it calls
`next()` (modelled as `none`). The function never consults the
environment mode. -/
def handleValidationErrors (errors : List VErr) (ts : String) :
    Option HttpResponse :=
  if errors.isEmpty then none
  else some (valFailureResponse errors ts)

/-- The entries of the `details` list of a response body. -/
def detailEntries (r : HttpResponse) : List JVal :=
  match jlookup r.body "details" with
  | some (JVal.arr l) => l
  | _ => []

/-! ## Routes of server.js -/

/-- Per-request dynamic data of `server.js` handlers that the embedding
abstracts over: timestamps (`new Date().toISOString()`), process uptime
and memory readings, the configured environment name, the
express-validator outcome for the request, and the random id minted for
a created user. -/
structure ServerCtx : Type where
  ts : String
  uptime : Int
  nodeEnv : String
  heapUsed : String
  heapTotal : String
  vErrors : List VErr
  newUserId : Int
  username : String
  email : String

/-- The `/health` handler (`server.js` lines 269-283): status field
`shutting_down`/`healthy` by the flag, timestamp, uptime, environment
and a memory-usage summary; HTTP status 503 while shutting down, else
200. -/
def healthHandler (isShuttingDown : Bool) (ctx : ServerCtx) : HttpResponse :=
  { status := if isShuttingDown then 503 else 200,
    headers := [],
    body := JVal.obj
      [ ("status", JVal.str (if isShuttingDown then "shutting_down" else "healthy")),
        ("timestamp", JVal.str ctx.ts),
        ("uptime", JVal.num ctx.uptime),
        ("environment", JVal.str ctx.nodeEnv),
        ("memoryUsage", JVal.obj
          [ ("heapUsed", JVal.str ctx.heapUsed),
            ("heapTotal", JVal.str ctx.heapTotal) ]) ] }

/-- The root handler (`server.js` lines 292-300). -/
def rootHandler (ts : String) : HttpResponse :=
  { status := 200,
    headers := [],
    body := JVal.obj
      [ ("message", JVal.str "Welcome to the Robust Node.js Server"),
        ("version", JVal.str "1.0.0"),
        ("documentation", JVal.str "/api/docs"),
        ("health", JVal.str "/health"),
        ("timestamp", JVal.str ts) ] }

/-- The 201 success payload of `POST /api/users` (`server.js` lines
315-334), reached only when `handleValidationErrors` called `next()`. -/
def userCreatedResponse (ctx : ServerCtx) : HttpResponse :=
  { status := 201,
    headers := [],
    body := JVal.obj
      [ ("success", JVal.bool true),
        ("message", JVal.str "User created successfully"),
        ("data", JVal.obj
          [ ("id", JVal.num ctx.newUserId),
            ("username", JVal.str ctx.username),
            ("email", JVal.str ctx.email),
            ("createdAt", JVal.str ctx.ts),
            ("updatedAt", JVal.str ctx.ts) ]) ] }

/-- The catch-all 404 handler (`server.js` lines 439-446). -/
def notFoundResponse (req : Request) (ts : String) : HttpResponse :=
  { status := 404,
    headers := [],
    body := JVal.obj
      [ ("success", JVal.bool false),
        ("error", JVal.str "Not Found"),
        ("message", JVal.str
          ("Route " ++ req.method ++ " " ++ req.path ++ " not found")),
        ("timestamp", JVal.str ts) ] }

/-- Route table of `server.js` restricted to the routes the verified
claims touch: `GET /health`, `GET /`, `POST /api/users` (validation then
handler) and the catch-all 404. The remaining demo routes
(`/api/resources/:id`, `/api/items`, `/api/docs`) follow the same
validate-then-respond pattern and no verified property depends on their
payloads. -/
def serverRoutes (isShuttingDown : Bool) (ctx : ServerCtx)
    (req : Request) : HttpResponse :=
  if req.method = "GET" ∧ req.path = "/health" then
    healthHandler isShuttingDown ctx
  else if req.method = "GET" ∧ req.path = "/" then rootHandler ctx.ts
  else if req.method = "POST" ∧ req.path = "/api/users" then
    match handleValidationErrors ctx.vErrors ctx.ts with
    | some r => r
    | none => userCreatedResponse ctx
  else notFoundResponse req ctx.ts

/-- The full `server.js` application: the shutdown-aware middleware in
front of the route table. -/
def serverApp (isShuttingDown : Bool) (ctx : ServerCtx) (req : Request) :
    HttpResponse × Bool :=
  appPipeline (serverRoutes isShuttingDown ctx) isShuttingDown ctx.ts req

/-! ## Rate limiting

The `skip` predicate and client key come from
`src/config/rateLimit.config.js`; the counting engine is the external
express-rate-limit package, modelled from spec §4.1. -/

/-- The skip predicate from `src/config/rateLimit.config.js`:
`['/health', '/api/health'].includes(req.path)`. -/
def rateLimitSkip (path : String) : Bool :=
  ["/health", "/api/health"].contains path

/-- A request as the rate limiter sees it: client IP (the key, per the
`keyGenerator` of `src/config/rateLimit.config.js`) and path. -/
structure RLReq : Type where
  ip : String
  path : String
deriving DecidableEq, Repr

/-- Per-client fixed-window counter entry. -/
structure RLEntry : Type where
  count : Nat
  windowStart : Nat
deriving DecidableEq, Repr

/-- Insert or replace a client's entry in the counter store. -/
def insertEntry : List (String × RLEntry) → String → RLEntry →
    List (String × RLEntry)
  | [], k, en => [(k, en)]
  | (k0, e0) :: rest, k, en =>
    if k0 = k then (k, en) :: rest else (k0, e0) :: insertEntry rest k en

/-- Modelled from the spec (§4.1): the fixed-window counting step of the
external express-rate-limit package, wired with the repository's
configuration — the skip predicate exempts health-check paths from
counting entirely, the client key is the IP. A non-exempt request
increments the client's counter for the current window (restarting the
window when it has expired) and is limited exactly when the
post-increment count exceeds `maxReq`. Returns (limited?, new store). -/
def rlStep (windowMs maxReq : Nat) (store : List (String × RLEntry))
    (req : RLReq) (now : Nat) : Bool × List (String × RLEntry) :=
  if rateLimitSkip req.path then (false, store)
  else
    let en : RLEntry :=
      match store.lookup req.ip with
      | some en0 =>
        if en0.windowStart + windowMs ≤ now then
          { count := 1, windowStart := now }
        else { count := en0.count + 1, windowStart := en0.windowStart }
      | none => { count := 1, windowStart := now }
    (decide (maxReq < en.count), insertEntry store req.ip en)

/-- Run the rate limiter over a timestamped request sequence, returning
each request paired with its limiting decision (true = 429). -/
def rlRun (windowMs maxReq : Nat) (store : List (String × RLEntry)) :
    List (RLReq × Nat) → List (RLReq × Bool)
  | [] => []
  | (req, now) :: rest =>
    let res := rlStep windowMs maxReq store req now
    (req, res.1) :: rlRun windowMs maxReq res.2 rest

/-! ## CORS -/

/-- Outcome of the origin check: pass the request on, or forward a
failure object carrying the given HTTP status. -/
inductive CorsDecision : Type where
  | allow : CorsDecision
  | deny : Nat → CorsDecision
deriving DecidableEq, Repr

/-- Shallow embedding of `originValidator` from
`src/config/cors.config.js`: requests with no Origin header are always
allowed; whitelisted origins are allowed; any other origin yields an
error object with `statusCode = 403`. -/
def originValidator (whitelist : List String) (origin : Option String) :
    CorsDecision :=
  match origin with
  | none => CorsDecision.allow
  | some o =>
    if whitelist.contains o then CorsDecision.allow
    else CorsDecision.deny 403

/-- Modelled from the spec (§4.3, §6): the external `cors` package
consults `originValidator` and, on allow, echoes the request origin in
`Access-Control-Allow-Origin` (no wildcard) and adds
`Access-Control-Allow-Credentials` when credentials are configured; on
deny it sets no CORS allow headers and forwards the failure. -/
def corsHeaders (whitelist : List String) (credentials : Bool)
    (origin : Option String) : List (String × String) :=
  match originValidator whitelist origin with
  | CorsDecision.allow =>
    (match origin with
     | some o => [("Access-Control-Allow-Origin", o)]
     | none => []) ++
    (if credentials then [("Access-Control-Allow-Credentials", "true")]
     else [])
  | CorsDecision.deny _ => []

end SecureApi

namespace SecureApi

/-! ## Helper lemmas -/

/-- No single operation lowers the shutdown flag. -/
theorem stepOp_flag_mono (s : LifecycleState) (op : SrvOp)
    (h : s.isShuttingDown = true) : (stepOp s op).isShuttingDown = true := by
  cases op <;> simp [stepOp, h]

/-- The shutdown flag survives any further sequence of operations. -/
theorem runOps_flag_mono (ops : List SrvOp) :
    ∀ s : LifecycleState, s.isShuttingDown = true →
      (runOps s ops).isShuttingDown = true := by
  induction ops with
  | nil => intro s h; exact h
  | cons op rest ih =>
    intro s h
    exact ih (stepOp s op) (stepOp_flag_mono s op h)

/-- Every lifecycle operation preserves the counter invariant. -/
theorem stepOp_inv (s : LifecycleState) (op : SrvOp)
    (h : LifecycleInv s) : LifecycleInv (stepOp s op) := by
  cases op <;>
    rcases h with ⟨hf, hd, hc⟩ | ⟨hf, hd, hc⟩ <;>
    simp [stepOp, LifecycleInv, hf, hd, hc]

/-- The counter invariant holds after any run from an invariant state. -/
theorem runOps_inv (ops : List SrvOp) :
    ∀ s : LifecycleState, LifecycleInv s → LifecycleInv (runOps s ops) := by
  induction ops with
  | nil => intro s h; exact h
  | cons op rest ih =>
    intro s h
    exact ih (stepOp s op) (stepOp_inv s op h)

/-- After at least one signal, the flag is up. -/
theorem runOps_signal_raises (ops : List SrvOp) :
    ∀ s : LifecycleState, 0 < ops.count SrvOp.signal →
      (runOps s ops).isShuttingDown = true := by
  induction ops with
  | nil => intro s h; simp [List.count] at h
  | cons op rest ih =>
    intro s h
    cases hop : op with
    | signal =>
      have hflag : (stepOp s SrvOp.signal).isShuttingDown = true := by
        by_cases hs : s.isShuttingDown = true
        · simp [stepOp, hs]
        · simp [stepOp, hs]
      exact runOps_flag_mono rest (stepOp s SrvOp.signal) hflag
    | openConn =>
      subst hop
      refine ih (stepOp s SrvOp.openConn) ?_
      simpa [List.count_cons] using h
    | closeConn =>
      subst hop
      refine ih (stepOp s SrvOp.closeConn) ?_
      simpa [List.count_cons] using h
    | addTimer =>
      subst hop
      refine ih (stepOp s SrvOp.addTimer) ?_
      simpa [List.count_cons] using h
    | removeTimer =>
      subst hop
      refine ih (stepOp s SrvOp.removeTimer) ?_
      simpa [List.count_cons] using h

/-! ## Claim theorems -/

/-- C2: once `isShuttingDown` is true it never reverts to false under
any further sequence of lifecycle operations, and shutdown is
single-shot: starting from the fresh process state, any operation
sequence containing N >= 1 termination signals runs exactly one drain
sequence and invokes the cleanup hook exactly once — every signal after
the first is a no-op. -/
theorem shutdown_monotone_and_single_shot (ops : List SrvOp) :
    (∀ s : LifecycleState, s.isShuttingDown = true →
        (runOps s ops).isShuttingDown = true) ∧
    (0 < ops.count SrvOp.signal →
      (runOps initState ops).isShuttingDown = true ∧
      (runOps initState ops).drains = 1 ∧
      (runOps initState ops).cleanups = 1) := by
  refine ⟨runOps_flag_mono ops, fun hsig => ?_⟩
  have hflag := runOps_signal_raises ops initState hsig
  have hinv := runOps_inv ops initState (Or.inl ⟨rfl, rfl, rfl⟩)
  rcases hinv with ⟨hf, _, _⟩ | ⟨_, hd, hc⟩
  · rw [hflag] at hf
    cases hf
  · exact ⟨hflag, hd, hc⟩

/-- Witness for C2: two rapid signals (with an interleaved connection
close) run exactly one drain sequence and one cleanup invocation. -/
theorem shutdown_monotone_and_single_shot_witness :
    (runOps initState [SrvOp.signal, SrvOp.closeConn, SrvOp.signal]).drains = 1 ∧
    (runOps initState [SrvOp.signal, SrvOp.closeConn, SrvOp.signal]).cleanups = 1 := by
  have h := (shutdown_monotone_and_single_shot
    [SrvOp.signal, SrvOp.closeConn, SrvOp.signal]).2 (by decide)
  exact ⟨h.2.1, h.2.2⟩

/-- C3: on the first termination signal the shutdown controller performs
its entry actions in strict order — set `isShuttingDown`, stop the
listener (no new connections, in-flight requests finish), forcibly close
the tracked connections, clear the tracked timers, then invoke and await
the cleanup hook — and exits with code 0 when the sequence completes
before the shutdown timeout, whose default is 30000 ms; when the timeout
expires first the process exits immediately with the non-zero code 1,
whatever the drain progress. -/
theorem drain_order_and_exit_codes (connections timers : Nat) :
    (∀ k : Nat,
      gracefulShutdownTrace false connections timers k false =
        [SEvent.setFlag, SEvent.stopListener,
         SEvent.closeConnections connections, SEvent.clearTimers timers,
         SEvent.cleanupHook, SEvent.exitProcess 0]) ∧
    (∀ k : Nat,
      (gracefulShutdownTrace false connections timers k true).getLast? =
        some (SEvent.exitProcess 1)) ∧
    shutdownTimeoutMs none = 30000 := by
  refine ⟨fun k => rfl, fun k => ?_, rfl⟩
  unfold gracefulShutdownTrace
  simp

/-- C5: for every failure object passed to the error formatter, the HTTP
status chosen is: the explicit `statusCode` if present, else the
`status` field if present, else 400 for validation-shaped failures
(name `ValidationError` or `isJoi`), else 400 for JSON syntax errors,
else 500. Proved for every failure object whose present numeric status
fields are nonzero (a present `0` is falsy in the JavaScript source and
no HTTP status is 0). -/
theorem getStatusCode_follows_claimed_chain (e : JsErr)
    (hsc : ∀ c, e.statusCode = some c → c ≠ 0)
    (hs : ∀ c, e.status = some c → c ≠ 0) :
    getStatusCode e = claimStatusCode e := by
  unfold getStatusCode claimStatusCode
  cases hc : e.statusCode with
  | some c =>
    have hne : c ≠ 0 := hsc c hc
    simp [truthyNum, hc, hne]
  | none =>
    cases hst : e.status with
    | some c =>
      have hne : c ≠ 0 := hs c hst
      simp [truthyNum, hc, hst, hne]
    | none =>
      simp [truthyNum, hc, hst]

/-- Witness for C5: a concrete Joi-shaped failure with no explicit
status fields is classified as 400 by both the code and the claim. -/
theorem getStatusCode_follows_claimed_chain_witness :
    getStatusCode ⟨none, none, "ValidationError", true, false, "bad", "", none⟩
      = claimStatusCode ⟨none, none, "ValidationError", true, false, "bad", "", none⟩ :=
  getStatusCode_follows_claimed_chain
    ⟨none, none, "ValidationError", true, false, "bad", "", none⟩
    (fun _ h => nomatch h) (fun _ h => nomatch h)

/-- C9: for a fixed failure object and fixed environment mode, two
invocations of the error formatter (differing only in the freshly
generated reference id) produce the same HTTP status code and envelopes
of the same shape: the same fields present at every level, differing
only in leaf values such as the reference id. -/
theorem errorHandler_deterministic_modulo_refid
    (isProduction : Bool) (e : JsErr) (id1 id2 : String) :
    (errorHandler isProduction e id1).1 = (errorHandler isProduction e id2).1 ∧
    jshape (errorHandler isProduction e id1).2
      = jshape (errorHandler isProduction e id2).2 := by
  cases isProduction <;>
    cases e.details <;>
    simp [errorHandler, prodEnvelope, devEnvelope, jshape, jshapeObj, jshapeList]

/-- C10: the CORS allow-credentials setting is enabled exactly when the
`CORS_CREDENTIALS` environment value is not the exact string `false`:
unset defaults to enabled, and `False`, `0`, `no` also leave credentials
enabled; only the literal string `false` disables it. -/
theorem corsCredentials_iff_not_false_string :
    (∀ v : Option String, corsCredentials v = true ↔ v ≠ some "false") ∧
    corsCredentials none = true ∧
    corsCredentials (some "False") = true ∧
    corsCredentials (some "0") = true ∧
    corsCredentials (some "no") = true ∧
    corsCredentials (some "false") = false := by
  refine ⟨fun v => ?_, by decide, by decide, by decide, by decide, by decide⟩
  unfold corsCredentials
  constructor
  · intro h
    simpa using h
  · intro h
    simpa using h

/-- C4: from the instant `isShuttingDown` becomes true, every new
inbound request — whatever route table sits behind the middleware —
receives HTTP 503 with a `Connection: close` header, and no route or
business logic of that request runs. -/
theorem drain_rejects_new_requests_before_routes
    (routes : Request → HttpResponse) (ts : String) (req : Request) :
    (appPipeline routes true ts req).1.status = 503 ∧
    ("Connection", "close") ∈ (appPipeline routes true ts req).1.headers ∧
    (appPipeline routes true ts req).2 = false := by
  refine ⟨rfl, ?_, rfl⟩
  simp [appPipeline, shutdownRejection]

/-- Counterexample for C1: in every environment mode, production
included, the response built by `handleValidationErrors` for a failed
`username` submission of value `ab` carries a detail entry whose
`value` field is the literal submitted value `ab` — refuting the
claimed redaction ("no entry contains the literal submitted value"). -/
theorem validation_details_expose_submitted_value :
    ∃ r : HttpResponse,
      handleValidationErrors
        [⟨"username", "", "Username must be between 3 and 50 characters",
          JVal.str "ab"⟩] "2024-01-01T00:00:00.000Z" = some r ∧
      ∃ d ∈ detailEntries r, jlookup d "value" = some (JVal.str "ab") := by
  refine ⟨_, rfl, ?_⟩
  exact ⟨_, List.Mem.head _, rfl⟩

/-- C1 amended: no validation failure path redacts submitted values in
production. The express-validator handler returns, in every mode, a 400
response whose `details` list maps each error to `{field, message,
value}` with `value` the literal submitted value; the secure error
handler instead omits the per-field detail list entirely in production
(generic message, status code and reference id only), and only in
development includes the full message and the complete `details`. -/
theorem validation_failure_disclosure (errors : List VErr) (ts : String)
    (e : JsErr) (refId : String) (hne : errors ≠ []) :
    (handleValidationErrors errors ts = some (valFailureResponse errors ts) ∧
      (valFailureResponse errors ts).status = 400 ∧
      jlookup (valFailureResponse errors ts).body "details"
        = some (JVal.arr (errors.map formatVErr)) ∧
      ∀ v ∈ errors, jlookup (formatVErr v) "value" = some v.value) ∧
    envelopeErrorField (errorHandler true e refId).2 "details" = none ∧
    envelopeErrorField (errorHandler false e refId).2 "details"
      = some (e.details.getD JVal.null) ∧
    envelopeErrorField (errorHandler false e refId).2 "message"
      = some (JVal.str (jsOrStr e.message "An error occurred")) := by
  have hE : errors.isEmpty = false := by
    simpa [List.isEmpty_iff] using hne
  refine ⟨⟨?_, rfl, rfl, fun v _ => rfl⟩, rfl, rfl, rfl⟩
  simp [handleValidationErrors, hE]

/-- Witness for C1 amended: the single-error username failure above,
formatted with one error handler invocation in each mode. -/
theorem validation_failure_disclosure_witness :
    handleValidationErrors
        [⟨"email", "", "Invalid email format", JVal.str "bad"⟩] "T"
      = some (valFailureResponse
          [⟨"email", "", "Invalid email format", JVal.str "bad"⟩] "T") ∧
    envelopeErrorField
        (errorHandler true ⟨none, none, "ValidationError", true, false,
          "boom", "trace", none⟩ "id-1").2 "details" = none := by
  have h := validation_failure_disclosure
    [⟨"email", "", "Invalid email format", JVal.str "bad"⟩] "T"
    ⟨none, none, "ValidationError", true, false, "boom", "trace", none⟩
    "id-1" (by simp)
  exact ⟨h.1.1, h.2.1⟩

/-- Counterexample for C7: during drain, a `GET /health` request is
answered by the shutdown middleware, whose 503 body `{error, message,
timestamp}` carries no `status` field at all — in particular no
distinct `shutting_down` status value; the health handler's
`shutting_down` branch is unreachable through the pipeline. -/
theorem health_during_drain_lacks_status_field :
    (serverApp true
        ⟨"2024-01-01T00:00:00.000Z", 5, "development", "10 MB", "20 MB",
          [], 1, "alice", "alice@example.com"⟩
        ⟨"GET", "/health"⟩).1.status = 503 ∧
    jlookup (serverApp true
        ⟨"2024-01-01T00:00:00.000Z", 5, "development", "10 MB", "20 MB",
          [], 1, "alice", "alice@example.com"⟩
        ⟨"GET", "/health"⟩).1.body "status" = none :=
  ⟨rfl, rfl⟩

/-- C7 amended: `GET /health` returns 200 with a body containing
status `healthy`, uptime, timestamp and a memory-usage summary; the
health-check paths are exempted from rate limiting by the skip
predicate; and once draining has begun the request receives HTTP 503 —
but from the shutdown middleware, with body `{error: Service
Unavailable, message: Server is shutting down}` and no distinct status
value, the health handler's `shutting_down` branch being unreachable
behind that middleware. -/
theorem health_endpoint_contract (ctx : ServerCtx) :
    ((serverApp false ctx ⟨"GET", "/health"⟩).1.status = 200 ∧
      jlookup (serverApp false ctx ⟨"GET", "/health"⟩).1.body "status"
        = some (JVal.str "healthy") ∧
      jlookup (serverApp false ctx ⟨"GET", "/health"⟩).1.body "uptime"
        = some (JVal.num ctx.uptime) ∧
      jlookup (serverApp false ctx ⟨"GET", "/health"⟩).1.body "timestamp"
        = some (JVal.str ctx.ts) ∧
      jlookup (serverApp false ctx ⟨"GET", "/health"⟩).1.body "memoryUsage"
        = some (JVal.obj
            [ ("heapUsed", JVal.str ctx.heapUsed),
              ("heapTotal", JVal.str ctx.heapTotal) ])) ∧
    (rateLimitSkip "/health" = true ∧ rateLimitSkip "/api/health" = true) ∧
    ((serverApp true ctx ⟨"GET", "/health"⟩).1.status = 503 ∧
      jlookup (serverApp true ctx ⟨"GET", "/health"⟩).1.body "status" = none ∧
      jlookup (serverApp true ctx ⟨"GET", "/health"⟩).1.body "error"
        = some (JVal.str "Service Unavailable") ∧
      jlookup (serverApp true ctx ⟨"GET", "/health"⟩).1.body "message"
        = some (JVal.str "Server is shutting down")) :=
  ⟨⟨rfl, rfl, rfl, rfl, rfl⟩, ⟨rfl, rfl⟩, ⟨rfl, rfl, rfl, rfl⟩⟩

/-- C6: the CORS origin check allows every request without an Origin
header; allows any whitelisted origin and echoes it in the allow-origin
response header, adding allow-credentials when configured; and rejects
every other origin with a failure carrying HTTP status 403, with no
allow-origin header (for that origin or any other) in the response. -/
theorem cors_whitelist_policy (whitelist : List String) (credentials : Bool) :
    originValidator whitelist none = CorsDecision.allow ∧
    (∀ o : String, o ∈ whitelist →
      originValidator whitelist (some o) = CorsDecision.allow ∧
      ("Access-Control-Allow-Origin", o)
        ∈ corsHeaders whitelist credentials (some o) ∧
      (credentials = true →
        ("Access-Control-Allow-Credentials", "true")
          ∈ corsHeaders whitelist credentials (some o))) ∧
    (∀ o : String, o ∉ whitelist →
      originValidator whitelist (some o) = CorsDecision.deny 403 ∧
      ∀ v : String,
        ("Access-Control-Allow-Origin", v)
          ∉ corsHeaders whitelist credentials (some o)) := by
  refine ⟨rfl, fun o ho => ?_, fun o ho => ?_⟩
  · have hv : originValidator whitelist (some o) = CorsDecision.allow := by
      simp [originValidator, ho]
    refine ⟨hv, ?_, fun hc => ?_⟩
    · simp [corsHeaders, hv]
    · simp [corsHeaders, hv, hc]
  · have hv : originValidator whitelist (some o) = CorsDecision.deny 403 := by
      simp [originValidator, ho]
    refine ⟨hv, fun v => ?_⟩
    simp [corsHeaders, hv]

/-- Witness for C6, Scenario E: against the default whitelist
(`http://localhost:3000`), the origin `http://evil.example` is rejected
with status 403 and is never echoed in an allow-origin header, while
the whitelisted origin is allowed. -/
theorem cors_whitelist_policy_witness :
    originValidator ["http://localhost:3000"] (some "http://evil.example")
      = CorsDecision.deny 403 ∧
    ("Access-Control-Allow-Origin", "http://evil.example")
      ∉ corsHeaders ["http://localhost:3000"] true (some "http://evil.example") ∧
    originValidator ["http://localhost:3000"] (some "http://localhost:3000")
      = CorsDecision.allow := by
  have h := cors_whitelist_policy ["http://localhost:3000"] true
  have hd := h.2.2 "http://evil.example" (by simp)
  have ha := h.2.1 "http://localhost:3000" (by simp)
  exact ⟨hd.1, hd.2 "http://evil.example", ha.1⟩

/-- C8: a request for a health-check path is never counted and never
limited — the limiter returns pass with the store untouched whatever
the client's prior count — and removing or adding health-path requests
from a request sequence does not change any other request's
rate-limit decision. -/
theorem health_paths_bypass_rate_limiting (windowMs maxReq : Nat) :
    (∀ (store : List (String × RLEntry)) (req : RLReq) (now : Nat),
      rateLimitSkip req.path = true →
        rlStep windowMs maxReq store req now = (false, store)) ∧
    (∀ (store : List (String × RLEntry)) (reqs : List (RLReq × Nat)),
      (rlRun windowMs maxReq store reqs).filter
          (fun p => !(rateLimitSkip p.1.path))
        = rlRun windowMs maxReq store
            (reqs.filter (fun p => !(rateLimitSkip p.1.path)))) := by
  constructor
  · intro store req now h
    simp [rlStep, h]
  · intro store reqs
    induction reqs generalizing store with
    | nil => rfl
    | cons head rest ih =>
      obtain ⟨req, now⟩ := head
      by_cases h : rateLimitSkip req.path = true
      · simp [rlRun, rlStep, h, List.filter_cons, ih]
      · have hb : rateLimitSkip req.path = false := by
          simpa using h
        simp [rlRun, rlStep, hb, List.filter_cons, ih]

/-- Witness for C8, Scenario B flavor: a client already at count 150
(far past a limit of 100) still gets its `/health` request through,
with the counter store untouched. -/
theorem health_paths_bypass_rate_limiting_witness :
    rlStep 900000 100 [("1.2.3.4", ⟨150, 0⟩)] ⟨"1.2.3.4", "/health"⟩ 60000
      = (false, [("1.2.3.4", ⟨150, 0⟩)]) :=
  (health_paths_bypass_rate_limiting 900000 100).1
    [("1.2.3.4", ⟨150, 0⟩)] ⟨"1.2.3.4", "/health"⟩ 60000 (by decide)

end SecureApi
